import Mathlib

/-!
Verification of the fulfillment data pipeline in `src/app.py`
(supply-chain dashboard).

The pandas dataframes are embedded shallowly as lists of records; missing
values (pandas `NaN`/`NaT`) are `Option.none`.  Each definition mirrors one
statement of `app.py`, noted in its doc comment.
-/

namespace SupplyChain

/-- A parsed calendar date (result of a successful `pd.to_datetime`). -/
structure Date where
  year : Int
  month : Nat
  day : Nat
deriving DecidableEq, Repr

/-- A row of the production sheet before date parsing: `eventdate` is the raw
string cell, `producedontime` a 0/1 cell that may be missing. -/
structure RawProdRow where
  salesorderreference : String
  eventdate : String
  producedontime : Option Bool
deriving DecidableEq, Repr

/-- A row of the delivery sheet before date parsing (`shipment` is the renamed
`delivereddate` column, still the raw string cell). -/
structure RawDelivRow where
  soreference : String
  supplier : Option String
  shipment : String
  delivered_on_time : Option Bool
  delivery_country_code : Option String
deriving DecidableEq, Repr

/-- A production row after `load_data`: `eventdate` holds the coerced parse
result (`app.py` line 27, `errors="coerce"`). -/
structure ProdRow where
  salesorderreference : String
  eventdate : Option Date
  producedontime : Option Bool
deriving DecidableEq, Repr

/-- A delivery row after `load_data`: `shipment` holds the coerced parse
result (`app.py` line 38). -/
structure DelivRow where
  soreference : String
  supplier : Option String
  shipment : Option Date
  delivered_on_time : Option Bool
  delivery_country_code : Option String
deriving DecidableEq, Repr

/-- The year test `series.dt.year == 2025` applied to one coerced date cell
(`app.py` lines 41-42): a `NaT` (`none`) has a `NaN` year, which compares
false against 2025. -/
def dateYearIs2025 : Option Date → Bool
  | some d => decide (d.year = 2025)
  | none => false

/-- `prod["eventdate"] = pd.to_datetime(..., errors="coerce")` followed by
`prod = prod[prod["eventdate"].dt.year == 2025]` (`app.py` lines 27, 41).
A `NaT` date (`none`) compares unequal to 2025 and the row is dropped. -/
def loadProd (parseDate : String → Option Date) (rows : List RawProdRow) : List ProdRow :=
  (rows.map fun r =>
    { salesorderreference := r.salesorderreference
      eventdate := parseDate r.eventdate
      producedontime := r.producedontime }).filter fun r => dateYearIs2025 r.eventdate

/-- `deliv["shipment"] = pd.to_datetime(..., errors="coerce")` followed by
`deliv = deliv[deliv["shipment"].dt.year == 2025]` (`app.py` lines 38, 42). -/
def loadDeliv (parseDate : String → Option Date) (rows : List RawDelivRow) : List DelivRow :=
  (rows.map fun r =>
    { soreference := r.soreference
      supplier := r.supplier
      shipment := parseDate r.shipment
      delivered_on_time := r.delivered_on_time
      delivery_country_code := r.delivery_country_code }).filter fun r =>
    dateYearIs2025 r.shipment

/-- A row of `joined_df` (`app.py` lines 51-56): the production columns plus
the five selected delivery columns; the delivery-side columns are `none` for
an unmatched production row. -/
structure JoinedRow where
  salesorderreference : String
  eventdate : Option Date
  producedontime : Option Bool
  soreference : Option String
  supplier : Option String
  delivered_on_time : Option Bool
  delivery_country_code : Option String
  shipment : Option Date
deriving DecidableEq, Repr

/-- The contribution of one production row to the left merge: each matching
delivery row in order, or a single row with missing delivery columns when no
delivery row matches. -/
def mergeRow (deliv : List DelivRow) (p : ProdRow) : List JoinedRow :=
  let ms := deliv.filter fun d => decide (d.soreference = p.salesorderreference)
  if ms.isEmpty then
    [{ salesorderreference := p.salesorderreference
       eventdate := p.eventdate
       producedontime := p.producedontime
       soreference := none
       supplier := none
       delivered_on_time := none
       delivery_country_code := none
       shipment := none }]
  else
    ms.map fun d =>
      { salesorderreference := p.salesorderreference
        eventdate := p.eventdate
        producedontime := p.producedontime
        soreference := some d.soreference
        supplier := d.supplier
        delivered_on_time := d.delivered_on_time
        delivery_country_code := d.delivery_country_code
        shipment := d.shipment }

/-- `prod_df.merge(deliv_df[...], left_on="salesorderreference",
right_on="soreference", how="left")` (`app.py` lines 51-56): every production
row is paired with each matching delivery row in order; a production row with
no match yields one output row with all delivery columns missing. -/
def mergeLeft (prod : List ProdRow) (deliv : List DelivRow) : List JoinedRow :=
  prod.flatMap (mergeRow deliv)

/-- `joined_df["supplier"] = joined_df["supplier"].fillna("UNKNOWN")`
(`app.py` line 59). -/
def fillSupplier (rows : List JoinedRow) : List JoinedRow :=
  rows.map fun r => { r with supplier := some (r.supplier.getD "UNKNOWN") }

/-- Insertion step of the sort used to model pandas sorting: `le` is a total
boolean comparison. -/
def insertLe (le : α → α → Bool) (a : α) : List α → List α
  | [] => [a]
  | b :: bs => if le a b then a :: b :: bs else b :: insertLe le a bs

/-- Comparison sort by a total boolean relation `le` (models
`sorted(...)` / `DataFrame.sort_values`; only the ordering of the output
matters to the source, not the sorting algorithm). -/
def sortLe (le : α → α → Bool) : List α → List α
  | [] => []
  | a :: as => insertLe le a (sortLe le as)

/-- Boolean string order used by Python `sorted` on column values. -/
def strLe (a b : String) : Bool := decide (a ≤ b)

/-- `sorted(joined_df["supplier"].unique())` (`app.py` lines 68-69): the
distinct non-missing supplier values, sorted. -/
def supplierOptions (rows : List JoinedRow) : List String :=
  sortLe strLe (rows.filterMap (fun r => r.supplier)).dedup

/-- `sorted(deliv_df["delivery_country_code"].dropna().unique())`
(`app.py` lines 74-75): the distinct non-missing country codes, sorted. -/
def countryOptions (rows : List DelivRow) : List String :=
  sortLe strLe (rows.filterMap (fun r => r.delivery_country_code)).dedup

/-- `joined_df[joined_df["supplier"].isin(supplier_filter)]` (`app.py`
line 84).  pandas `isin` is false on a missing value. -/
def supplierIsin (sel : List String) (rows : List JoinedRow) : List JoinedRow :=
  rows.filter fun r =>
    match r.supplier with
    | some s => sel.contains s
    | none => false

/-- `deliv_df[deliv_df["delivery_country_code"].isin(country_filter)]`
(`app.py` line 85).  pandas `isin` is false on a missing value. -/
def countryIsin (sel : List String) (rows : List DelivRow) : List DelivRow :=
  rows.filter fun r =>
    match r.delivery_country_code with
    | some c => sel.contains c
    | none => false

/-- `Series.mean()` over a 0/1 column (`app.py` lines 90-91): the mean of the
non-missing values, `none` (pandas `NaN`) when there are none. -/
def meanOT (xs : List (Option Bool)) : Option ℚ :=
  let vs := xs.filterMap id
  if vs.isEmpty then none
  else some ((vs.countP id : ℚ) / (vs.length : ℚ))

/-- Python `f"{x:.0%}"` (`app.py` line 109): a missing rate (float `NaN`)
formats as the string `"nan%"`; a number formats as a rounded percentage. -/
def fmtPercent (x : Option ℚ) : String :=
  match x with
  | none => "nan%"
  | some q => toString (round (q * 100)) ++ "%"

/-- `.dt.month` of a date column (`app.py` lines 124-125). -/
def monthOf (d : Option Date) : Option Nat := d.map Date.month

/-- `df.groupby("month")[col].mean().reset_index()` (`app.py` lines 127-128):
group keys are the distinct non-missing months in ascending order; each is
paired with the mean of the column over its group. -/
def monthlyMean (rows : List (Option Nat × Option Bool)) : List (Nat × Option ℚ) :=
  (sortLe (fun a b => decide (a ≤ b)) (rows.filterMap Prod.fst).dedup).map fun m =>
    (m, meanOT ((rows.filter fun r => decide (r.1 = some m)).map Prod.snd))

/-- `monthly_prod.merge(monthly_del, on="month", suffixes=...)` (`app.py`
lines 130-132): pandas `merge` with no `how` argument is an inner join on the
key, pairing each left row with each matching right row. -/
def monthlyPerf (mp md : List (Nat × Option ℚ)) : List (Nat × Option ℚ × Option ℚ) :=
  mp.flatMap fun p => (md.filter fun q => decide (q.1 = p.1)).map fun q => (p.1, p.2, q.2)

/-- Descending-rate comparison of `sort_values(col, ascending=False)`
(`app.py` lines 158, 172): a missing rate (pandas `NaN`, the default
`na_position="last"`) sorts after every number, i.e. is the least element of
the descending order. -/
def rateGE (a b : Option ℚ) : Bool :=
  match a, b with
  | _, none => true
  | none, some _ => false
  | some x, some y => decide (y ≤ x)

/-- `joined_df.groupby("supplier").agg(Orders=("salesorderreference","count"),
Delivered_On_Time=("delivered_on-time","mean")).reset_index()
.sort_values("Delivered_On_Time", ascending=False)` (`app.py` lines 155-158).
`salesorderreference` is never missing, so its count is the group size. -/
def supplierPerf (rows : List JoinedRow) : List (String × Nat × Option ℚ) :=
  sortLe (fun x y => rateGE x.2.2 y.2.2)
    ((sortLe strLe (rows.filterMap (fun r => r.supplier)).dedup).map fun s =>
      let grp := rows.filter fun r => decide (r.supplier = some s)
      (s, grp.length, meanOT (grp.map fun r => r.delivered_on_time)))

/-- `deliv_df.groupby("delivery_country_code").agg(Orders=("soreference","count"),
Delivered_On_Time=("delivered_on-time","mean")).reset_index()
.sort_values("Delivered_On_Time", ascending=False)` (`app.py` lines 169-172).
`soreference` is never missing, so its count is the group size. -/
def countryPerf (rows : List DelivRow) : List (String × Nat × Option ℚ) :=
  sortLe (fun x y => rateGE x.2.2 y.2.2)
    ((sortLe strLe (rows.filterMap (fun r => r.delivery_country_code)).dedup).map fun c =>
      let grp := rows.filter fun r => decide (r.delivery_country_code = some c)
      (c, grp.length, meanOT (grp.map fun r => r.delivered_on_time)))

/-- All pipeline outputs of one run of `app.py` after `load_data`, as a
function of the two loaded datasets and the two sidebar selections. -/
structure Dashboard where
  joinedFiltered : List JoinedRow
  delivFiltered : List DelivRow
  prod_ot : Option ℚ
  del_ot : Option ℚ
  monthly_prod : List (Nat × Option ℚ)
  monthly_del : List (Nat × Option ℚ)
  monthly_perf : List (Nat × Option ℚ × Option ℚ)
  supplier_perf : List (String × Nat × Option ℚ)
  country_perf : List (String × Nat × Option ℚ)
deriving DecidableEq, Repr

/-- The straight-line computation of `app.py` lines 51-172 on the loaded
datasets: join and fill (51-59), the two `isin` filters (84-85), the two KPI
means (90-91), the monthly series and their merge (124-132), and the two
grouped performance tables (155-158, 169-172).  `monthly_prod` is computed
from the unfiltered `prod_df`, exactly as line 127 does. -/
def dashboard (prod : List ProdRow) (deliv : List DelivRow)
    (supplierSel countrySel : List String) : Dashboard :=
  let joined := fillSupplier (mergeLeft prod deliv)
  let joinedF := supplierIsin supplierSel joined
  let delivF := countryIsin countrySel deliv
  let mp := monthlyMean (prod.map fun r => (monthOf r.eventdate, r.producedontime))
  let md := monthlyMean (delivF.map fun r => (monthOf r.shipment, r.delivered_on_time))
  { joinedFiltered := joinedF
    delivFiltered := delivF
    prod_ot := meanOT (joinedF.map fun r => r.producedontime)
    del_ot := meanOT (delivF.map fun r => r.delivered_on_time)
    monthly_prod := mp
    monthly_del := md
    monthly_perf := monthlyPerf mp md
    supplier_perf := supplierPerf joinedF
    country_perf := countryPerf delivF }

/-! ### Unfolding lemmas for the dashboard projections -/

theorem dashboard_prod_ot (prod : List ProdRow) (deliv : List DelivRow)
    (sSel cSel : List String) :
    (dashboard prod deliv sSel cSel).prod_ot =
      meanOT ((supplierIsin sSel (fillSupplier (mergeLeft prod deliv))).map
        fun r => r.producedontime) := rfl

theorem dashboard_del_ot (prod : List ProdRow) (deliv : List DelivRow)
    (sSel cSel : List String) :
    (dashboard prod deliv sSel cSel).del_ot =
      meanOT ((countryIsin cSel deliv).map fun r => r.delivered_on_time) := rfl

theorem dashboard_monthly_del (prod : List ProdRow) (deliv : List DelivRow)
    (sSel cSel : List String) :
    (dashboard prod deliv sSel cSel).monthly_del =
      monthlyMean ((countryIsin cSel deliv).map
        fun r => (monthOf r.shipment, r.delivered_on_time)) := rfl

theorem dashboard_country_perf (prod : List ProdRow) (deliv : List DelivRow)
    (sSel cSel : List String) :
    (dashboard prod deliv sSel cSel).country_perf =
      countryPerf (countryIsin cSel deliv) := rfl

/-! ### The insertion sort used to model `sorted` and `sort_values` -/

theorem head?_insertLe (le : α → α → Bool) (a : α) :
    ∀ l : List α, (insertLe le a l).head? = some a ∨ (insertLe le a l).head? = l.head?
  | [] => Or.inl rfl
  | b :: bs => by
    by_cases h : le a b = true
    · left; simp [insertLe, h]
    · right; simp [insertLe, h]

theorem chain_insertLe (le : α → α → Bool)
    (htot : ∀ a b, le a b = false → le b a = true) (a : α) :
    ∀ l : List α, List.Chain' (fun x y => le x y = true) l →
      List.Chain' (fun x y => le x y = true) (insertLe le a l)
  | [], _ => List.chain'_singleton a
  | b :: bs, h => by
    rw [insertLe]
    by_cases hab : le a b = true
    · rw [if_pos hab]
      exact List.chain'_cons.mpr ⟨hab, h⟩
    · rw [if_neg hab]
      have hba : le b a = true := htot a b (Bool.eq_false_iff.mpr hab)
      have htail : List.Chain' (fun x y => le x y = true) (insertLe le a bs) :=
        chain_insertLe le htot a bs h.tail
      refine List.chain'_cons'.mpr ⟨?_, htail⟩
      intro y hy
      rcases head?_insertLe le a bs with hh | hh
      · rw [hh, Option.mem_some_iff] at hy
        rw [hy] at hba
        exact hba
      · rw [hh] at hy
        have := List.chain'_cons'.mp h
        exact this.1 y hy

theorem chain_sortLe (le : α → α → Bool)
    (htot : ∀ a b, le a b = false → le b a = true) :
    ∀ l : List α, List.Chain' (fun x y => le x y = true) (sortLe le l)
  | [] => List.chain'_nil
  | a :: as => chain_insertLe le htot a _ (chain_sortLe le htot as)

theorem mem_insertLe (le : α → α → Bool) (a x : α) :
    ∀ l : List α, x ∈ insertLe le a l ↔ x = a ∨ x ∈ l
  | [] => by simp [insertLe]
  | b :: bs => by
    rw [insertLe]
    by_cases h : le a b = true
    · rw [if_pos h]
      simp [or_comm, or_left_comm]
    · rw [if_neg h]
      simp [mem_insertLe le a x bs, or_comm, or_left_comm]

theorem mem_sortLe (le : α → α → Bool) (x : α) :
    ∀ l : List α, x ∈ sortLe le l ↔ x ∈ l
  | [] => Iff.rfl
  | a :: as => by
    rw [sortLe, mem_insertLe le a x (sortLe le as), mem_sortLe le x as]
    simp

/-- Totality of the descending-rate comparison: pandas places every value
either before or after every other, missing rates last. -/
theorem rateGE_total (a b : Option ℚ) (h : rateGE a b = false) : rateGE b a = true := by
  cases a with
  | none =>
    cases b with
    | none => simp [rateGE] at h
    | some y => simp [rateGE]
  | some x =>
    cases b with
    | none => simp [rateGE] at h
    | some y =>
      simp only [rateGE, decide_eq_false_iff_not] at h
      simpa [rateGE] using le_of_not_le h

/-! ### Example data for concrete witnesses -/

/-- A production row matched by a delivery row. -/
def exProd1 : ProdRow :=
  { salesorderreference := "SO1", eventdate := some ⟨2025, 1, 15⟩, producedontime := some true }

/-- A production row with no matching delivery row. -/
def exProd2 : ProdRow :=
  { salesorderreference := "SO2", eventdate := some ⟨2025, 1, 20⟩, producedontime := some false }

/-- A delivery row for order `SO1`. -/
def exDeliv1 : DelivRow :=
  { soreference := "SO1", supplier := some "ACME", shipment := some ⟨2025, 2, 20⟩,
    delivered_on_time := some true, delivery_country_code := some "US" }

/-- The joined row produced for `exProd2`, which matches no delivery row. -/
def exUnmatchedRow : JoinedRow :=
  { salesorderreference := "SO2", eventdate := some ⟨2025, 1, 20⟩, producedontime := some false,
    soreference := none, supplier := some "UNKNOWN", delivered_on_time := none,
    delivery_country_code := none, shipment := none }

/-! ### C3: the left join preserves the production row count -/

/-- With distinct delivery order references, at most one delivery row matches
any key. -/
theorem count_matches_le_one (deliv : List DelivRow) (k : String)
    (h : (deliv.map DelivRow.soreference).Nodup) :
    (deliv.filter fun d => decide (d.soreference = k)).length ≤ 1 := by
  induction deliv with
  | nil => simp
  | cons d ds ih =>
    rw [List.map_cons, List.nodup_cons] at h
    rw [List.filter_cons]
    by_cases hd : d.soreference = k
    · rw [if_pos (by simpa using hd)]
      have hnil : (ds.filter fun d => decide (d.soreference = k)) = [] := by
        apply List.filter_eq_nil_iff.mpr
        intro x hx
        simp only [decide_eq_true_eq]
        intro hxk
        apply h.1
        rw [hd, ← hxk]
        exact List.mem_map_of_mem _ hx
      rw [hnil]
      simp
    · rw [if_neg (by simpa using hd)]
      exact ih h.2

/-- Each production row contributes exactly one joined row when delivery
order references are unique. -/
theorem mergeRow_length_eq_one (deliv : List DelivRow) (p : ProdRow)
    (h : (deliv.map DelivRow.soreference).Nodup) :
    (mergeRow deliv p).length = 1 := by
  rw [mergeRow]
  by_cases hms : (deliv.filter fun d =>
      decide (d.soreference = p.salesorderreference)).isEmpty = true
  · rw [if_pos hms]
    rfl
  · rw [if_neg hms, List.length_map]
    have hle := count_matches_le_one deliv p.salesorderreference h
    have hne : (deliv.filter fun d =>
        decide (d.soreference = p.salesorderreference)) ≠ [] := by
      intro hnil
      rw [hnil] at hms
      exact hms rfl
    have hpos : 0 < (deliv.filter fun d =>
        decide (d.soreference = p.salesorderreference)).length :=
      List.length_pos.mpr hne
    omega

/-- C3: for every production dataset and every delivery dataset whose order
references are pairwise distinct, the left join on order reference has exactly
as many rows as the production dataset. -/
theorem mergeLeft_length_eq_of_unique_sorefs (prod : List ProdRow) (deliv : List DelivRow)
    (h : (deliv.map DelivRow.soreference).Nodup) :
    (mergeLeft prod deliv).length = prod.length := by
  induction prod with
  | nil => rfl
  | cons p ps ih =>
    rw [mergeLeft, List.flatMap_cons, List.length_append]
    rw [mergeLeft] at ih
    rw [ih, mergeRow_length_eq_one deliv p h, List.length_cons]
    omega

/-- Concrete instance of `mergeLeft_length_eq_of_unique_sorefs`: two
production rows, one delivery row, two joined rows. -/
theorem mergeLeft_length_eq_of_unique_sorefs_witness :
    (([exDeliv1].map DelivRow.soreference).Nodup) ∧
      (mergeLeft [exProd1, exProd2] [exDeliv1]).length = [exProd1, exProd2].length :=
  ⟨by decide, mergeLeft_length_eq_of_unique_sorefs [exProd1, exProd2] [exDeliv1] (by decide)⟩

/-! ### C4: unmatched production rows get the sentinel supplier -/

/-- C4: every joined-and-filled output row whose order reference matches no
delivery row carries supplier exactly `"UNKNOWN"` and missing delivery-derived
fields (`delivered_on-time`, country code, shipment date). -/
theorem unmatched_row_unknown_supplier_null_fields (prod : List ProdRow)
    (deliv : List DelivRow) (r : JoinedRow)
    (hr : r ∈ fillSupplier (mergeLeft prod deliv))
    (hno : ∀ d ∈ deliv, d.soreference ≠ r.salesorderreference) :
    r.supplier = some "UNKNOWN" ∧ r.delivered_on_time = none ∧
      r.delivery_country_code = none ∧ r.shipment = none := by
  rw [fillSupplier, List.mem_map] at hr
  obtain ⟨r0, hr0, rfl⟩ := hr
  rw [mergeLeft, List.mem_flatMap] at hr0
  obtain ⟨p, hp, hmem⟩ := hr0
  rw [mergeRow] at hmem
  by_cases hms : (deliv.filter fun d =>
      decide (d.soreference = p.salesorderreference)).isEmpty = true
  · rw [if_pos hms, List.mem_singleton] at hmem
    subst hmem
    exact ⟨rfl, rfl, rfl, rfl⟩
  · rw [if_neg hms, List.mem_map] at hmem
    obtain ⟨d, hd, hd'⟩ := hmem
    rw [List.mem_filter] at hd
    exfalso
    apply hno d hd.1
    have hkey : d.soreference = p.salesorderreference := by
      have := hd.2
      simpa using this
    rw [hkey, ← hd']

/-- Concrete instance of `unmatched_row_unknown_supplier_null_fields` at the
joined row for order `SO2`. -/
theorem unmatched_row_unknown_supplier_null_fields_witness :
    exUnmatchedRow ∈ fillSupplier (mergeLeft [exProd1, exProd2] [exDeliv1]) ∧
      (∀ d ∈ [exDeliv1], d.soreference ≠ exUnmatchedRow.salesorderreference) ∧
      (exUnmatchedRow.supplier = some "UNKNOWN" ∧ exUnmatchedRow.delivered_on_time = none ∧
        exUnmatchedRow.delivery_country_code = none ∧ exUnmatchedRow.shipment = none) :=
  ⟨by decide, by decide,
    unmatched_row_unknown_supplier_null_fields [exProd1, exProd2] [exDeliv1] exUnmatchedRow
      (by decide) (by decide)⟩

/-! ### C5: grouped performance tables are sorted descending by rate -/

/-- C5: both grouped performance tables are sorted descending by mean on-time
rate: every adjacent pair of rows satisfies `rateGE`, the descending order of
`sort_values(ascending=False)` in which a missing (`NaN`) rate sorts after
every number. -/
theorem perf_tables_sorted_desc_by_rate (jrows : List JoinedRow) (drows : List DelivRow) :
    List.Chain' (fun x y => rateGE x.2.2 y.2.2 = true) (supplierPerf jrows) ∧
      List.Chain' (fun x y => rateGE x.2.2 y.2.2 = true) (countryPerf drows) :=
  ⟨chain_sortLe _ (fun x y h => rateGE_total x.2.2 y.2.2 h) _,
   chain_sortLe _ (fun x y h => rateGE_total x.2.2 y.2.2 h) _⟩

/-! ### C8: delivery-side outputs ignore the supplier selection -/

/-- C8: two runs on the same loaded datasets that differ only in the selected
supplier set produce the same delivery KPI rate, country performance table,
production monthly series and delivery monthly series (the supplier filter
touches only `joined_df`; `monthly_prod` is computed from the unfiltered
`prod_df`). -/
theorem delivery_outputs_independent_of_supplier_selection (prod : List ProdRow)
    (deliv : List DelivRow) (sSel1 sSel2 cSel : List String) :
    (dashboard prod deliv sSel1 cSel).del_ot = (dashboard prod deliv sSel2 cSel).del_ot ∧
      (dashboard prod deliv sSel1 cSel).country_perf =
        (dashboard prod deliv sSel2 cSel).country_perf ∧
      (dashboard prod deliv sSel1 cSel).monthly_prod =
        (dashboard prod deliv sSel2 cSel).monthly_prod ∧
      (dashboard prod deliv sSel1 cSel).monthly_del =
        (dashboard prod deliv sSel2 cSel).monthly_del :=
  ⟨rfl, rfl, rfl, rfl⟩

/-! ### C6: the supplier filter is the identity at full selection -/

/-- C6: filtering `joined_df` with the full default selection (the sorted
distinct supplier values present in `joined_df`) returns `joined_df`
unchanged. -/
theorem supplier_filter_full_selection_identity (prod : List ProdRow) (deliv : List DelivRow) :
    supplierIsin (supplierOptions (fillSupplier (mergeLeft prod deliv)))
      (fillSupplier (mergeLeft prod deliv)) = fillSupplier (mergeLeft prod deliv) := by
  rw [supplierIsin, List.filter_eq_self]
  intro r hr
  rw [fillSupplier, List.mem_map] at hr
  obtain ⟨r0, hr0, rfl⟩ := hr
  show (supplierOptions (fillSupplier (mergeLeft prod deliv))).contains
    (r0.supplier.getD "UNKNOWN") = true
  have hmem : r0.supplier.getD "UNKNOWN" ∈
      supplierOptions (fillSupplier (mergeLeft prod deliv)) := by
    rw [supplierOptions, mem_sortLe, List.mem_dedup, List.mem_filterMap]
    refine ⟨{ r0 with supplier := some (r0.supplier.getD "UNKNOWN") }, ?_, rfl⟩
    rw [fillSupplier]
    exact List.mem_map_of_mem _ hr0
  exact List.elem_iff.mpr hmem

/-! ### C7: KPI rates lie in the unit interval -/

/-- The mean of a 0/1 column with at least one non-missing value is a rational
number between 0 and 1. -/
theorem meanOT_bounds (xs : List (Option Bool)) (h : xs.filterMap id ≠ []) :
    ∃ q, meanOT xs = some q ∧ 0 ≤ q ∧ q ≤ 1 := by
  have hne : (xs.filterMap id).isEmpty = false := List.isEmpty_eq_false.mpr h
  have hlen : 0 < (((xs.filterMap id).length : ℚ)) := by
    have : 0 < (xs.filterMap id).length := List.length_pos.mpr h
    exact_mod_cast this
  refine ⟨((xs.filterMap id).countP id : ℚ) / ((xs.filterMap id).length : ℚ), ?_, ?_, ?_⟩
  · simp only [meanOT, hne, Bool.false_eq_true, if_false]
  · positivity
  · rw [div_le_one hlen]
    exact_mod_cast List.countP_le_length id

/-- C7: whenever the filtered production rows contain at least one
non-missing on-time value, the production KPI rate is defined and lies in
`[0, 1]`; independently, the same holds of the filtered delivery rows and the
delivery KPI rate.  The two sides are separate implications, so each filtered
row set with data is covered regardless of the state of the other. -/
theorem kpi_rates_in_unit_interval (prod : List ProdRow) (deliv : List DelivRow)
    (sSel cSel : List String) :
    (((supplierIsin sSel (fillSupplier (mergeLeft prod deliv))).map
        (fun r => r.producedontime)).filterMap id ≠ [] →
      ∃ q, (dashboard prod deliv sSel cSel).prod_ot = some q ∧ 0 ≤ q ∧ q ≤ 1) ∧
      (((countryIsin cSel deliv).map
        (fun r => r.delivered_on_time)).filterMap id ≠ [] →
        ∃ q, (dashboard prod deliv sSel cSel).del_ot = some q ∧ 0 ≤ q ∧ q ≤ 1) := by
  constructor
  · intro hp
    rw [dashboard_prod_ot]
    exact meanOT_bounds _ hp
  · intro hd
    rw [dashboard_del_ot]
    exact meanOT_bounds _ hd

/-- Concrete instances of both sides of `kpi_rates_in_unit_interval`: the
production side is exercised with an empty delivery dataset (its own
hypothesis holds while the delivery side has no data), and the delivery side
on the example delivery data. -/
theorem kpi_rates_in_unit_interval_witness :
    (((supplierIsin ["UNKNOWN"] (fillSupplier (mergeLeft [exProd1] []))).map
        (fun r => r.producedontime)).filterMap id ≠ []) ∧
      (((countryIsin ["US"] [exDeliv1]).map
        (fun r => r.delivered_on_time)).filterMap id ≠ []) ∧
      (∃ q, (dashboard [exProd1] [] ["UNKNOWN"] ["US"]).prod_ot = some q ∧
        0 ≤ q ∧ q ≤ 1) ∧
      (∃ q, (dashboard [exProd1] [exDeliv1] ["ACME"] ["US"]).del_ot = some q ∧
        0 ≤ q ∧ q ≤ 1) :=
  ⟨by decide, by decide,
    (kpi_rates_in_unit_interval [exProd1] [] ["UNKNOWN"] ["US"]).1 (by decide),
    (kpi_rates_in_unit_interval [exProd1] [exDeliv1] ["ACME"] ["US"]).2 (by decide)⟩

/-! ### C9: rows with a missing country code never pass the country filter -/

/-- Pre-dropping the rows with a missing country code does not change the
result of the country filter: such rows never pass `isin`. -/
theorem countryIsin_filter_nonnull (sel : List String) (deliv : List DelivRow) :
    countryIsin sel (deliv.filter fun r => decide (r.delivery_country_code ≠ none)) =
      countryIsin sel deliv := by
  rw [countryIsin, countryIsin, List.filter_filter]
  apply List.filter_congr
  intro r _
  cases hc : r.delivery_country_code with
  | none => simp [hc]
  | some c => simp [hc]

/-- C9: every row passing the country filter has a non-missing country code,
and deleting the missing-country rows beforehand changes neither the filtered
set nor the delivery KPI, the country performance table, or the delivery
monthly series. -/
theorem null_country_rows_never_contribute (prod : List ProdRow) (deliv : List DelivRow)
    (sSel cSel : List String) :
    ((countryIsin cSel deliv).all fun r => decide (r.delivery_country_code ≠ none)) = true ∧
      countryIsin cSel (deliv.filter fun r => decide (r.delivery_country_code ≠ none)) =
        countryIsin cSel deliv ∧
      (dashboard prod deliv sSel cSel).del_ot =
        (dashboard prod (deliv.filter fun r => decide (r.delivery_country_code ≠ none))
          sSel cSel).del_ot ∧
      (dashboard prod deliv sSel cSel).country_perf =
        (dashboard prod (deliv.filter fun r => decide (r.delivery_country_code ≠ none))
          sSel cSel).country_perf ∧
      (dashboard prod deliv sSel cSel).monthly_del =
        (dashboard prod (deliv.filter fun r => decide (r.delivery_country_code ≠ none))
          sSel cSel).monthly_del := by
  have h2 := countryIsin_filter_nonnull cSel deliv
  refine ⟨?_, h2, ?_, ?_, ?_⟩
  · rw [List.all_eq_true]
    intro r hr
    simp only [countryIsin, List.mem_filter] at hr
    cases hc : r.delivery_country_code with
    | none =>
      have := hr.2
      rw [hc] at this
      simp at this
    | some c => simp [hc]
  · rw [dashboard_del_ot, dashboard_del_ot, h2]
  · rw [dashboard_country_perf, dashboard_country_perf, h2]
  · rw [dashboard_monthly_del, dashboard_monthly_del, h2]

/-! ### C10: every retained row is dated in 2025 -/

/-- A joined row inherits its event date from the production row that produced
it. -/
theorem mergeRow_eventdate (deliv : List DelivRow) (p : ProdRow) (r : JoinedRow)
    (hr : r ∈ mergeRow deliv p) : r.eventdate = p.eventdate := by
  rw [mergeRow] at hr
  by_cases hms : (deliv.filter fun d =>
      decide (d.soreference = p.salesorderreference)).isEmpty = true
  · rw [if_pos hms, List.mem_singleton] at hr
    subst hr
    rfl
  · rw [if_neg hms, List.mem_map] at hr
    obtain ⟨d, _, hd⟩ := hr
    rw [← hd]

/-- C10: after `load_data`, every retained production row and every retained
delivery row carries a successfully parsed date in calendar year 2025, and so
does every row of the join built from them. -/
theorem loaded_and_joined_rows_dated_2025 (parseP parseD : String → Option Date)
    (rawP : List RawProdRow) (rawD : List RawDelivRow) :
    ((loadProd parseP rawP).all fun r => dateYearIs2025 r.eventdate) = true ∧
      ((loadDeliv parseD rawD).all fun r => dateYearIs2025 r.shipment) = true ∧
      ((mergeLeft (loadProd parseP rawP) (loadDeliv parseD rawD)).all
        fun r => dateYearIs2025 r.eventdate) = true := by
  have hP : ∀ r ∈ loadProd parseP rawP, dateYearIs2025 r.eventdate = true := by
    intro r hr
    rw [loadProd] at hr
    exact (List.mem_filter.mp hr).2
  refine ⟨List.all_eq_true.mpr hP, ?_, ?_⟩
  · rw [List.all_eq_true]
    intro r hr
    rw [loadDeliv] at hr
    exact (List.mem_filter.mp hr).2
  · rw [List.all_eq_true]
    intro r hr
    rw [mergeLeft, List.mem_flatMap] at hr
    obtain ⟨p, hp, hmem⟩ := hr
    rw [mergeRow_eventdate _ _ _ hmem]
    exact hP p hp

/-! ### C1: the monthly trend table is inner-aligned, not outer-aligned -/

/-- C1 fails on the code: with production data only in month 1 and delivery
data only in month 2, the combined monthly trend table is empty — pandas
`merge` with no `how` argument is an inner join, so a month present in only
one monthly series is dropped instead of appearing with a gap. -/
theorem monthly_trend_inner_join_drops_month :
    (dashboard [exProd1] [exDeliv1] ["ACME"] ["US"]).monthly_prod.map Prod.fst = [1] ∧
      (dashboard [exProd1] [exDeliv1] ["ACME"] ["US"]).monthly_del.map Prod.fst = [2] ∧
      (dashboard [exProd1] [exDeliv1] ["ACME"] ["US"]).monthly_perf = [] := by
  decide

/-- C1 amended: the combined monthly trend table inner-aligns the two series.
A row `(m, p, q)` belongs to the table exactly when `(m, p)` is a row of the
production monthly series and `(m, q)` a row of the delivery monthly series;
in particular every month carried by both series appears with both per-month
means, and a month carried by only one series yields no row at all — the
table never holds a gap for the missing side. -/
theorem monthly_perf_inner_alignment (mp md : List (Nat × Option ℚ))
    (m : Nat) (p q : Option ℚ) :
    (m, p, q) ∈ monthlyPerf mp md ↔ (m, p) ∈ mp ∧ (m, q) ∈ md := by
  constructor
  · intro h
    rw [monthlyPerf, List.mem_flatMap] at h
    obtain ⟨p', hp', h⟩ := h
    rw [List.mem_map] at h
    obtain ⟨q', hq', heq⟩ := h
    rw [List.mem_filter] at hq'
    obtain ⟨hqmem, hkey⟩ := hq'
    rw [decide_eq_true_eq] at hkey
    rw [Prod.ext_iff] at heq
    obtain ⟨h1, heq2⟩ := heq
    rw [Prod.ext_iff] at heq2
    obtain ⟨h2, h3⟩ := heq2
    constructor
    · have hp'' : p' = (m, p) := Prod.ext h1 h2
      rw [← hp'']
      exact hp'
    · have hq'' : q' = (m, q) := Prod.ext (by rw [hkey, h1]) h3
      rw [← hq'']
      exact hqmem
  · rintro ⟨hp, hq⟩
    rw [monthlyPerf, List.mem_flatMap]
    refine ⟨(m, p), hp, ?_⟩
    rw [List.mem_map]
    refine ⟨(m, q), ?_, rfl⟩
    rw [List.mem_filter]
    exact ⟨hq, by simp⟩

/-- Concrete instance of `monthly_perf_inner_alignment`: month 1 is shared by
both series and appears with both means; month 2 occurs only in the delivery
series and yields no row for any pair of cell values. -/
theorem monthly_perf_inner_alignment_witness :
    (1, some (1 : ℚ), some (0 : ℚ)) ∈
        monthlyPerf [(1, some (1 : ℚ))] [(1, some (0 : ℚ)), (2, some (1 : ℚ))] ∧
      (2, some (1 : ℚ), some (1 : ℚ)) ∉
        monthlyPerf [(1, some (1 : ℚ))] [(1, some (0 : ℚ)), (2, some (1 : ℚ))] :=
  ⟨(monthly_perf_inner_alignment [(1, some 1)] [(1, some 0), (2, some 1)] 1
      (some 1) (some 0)).mpr ⟨by simp, by simp⟩,
   fun h =>
    by simpa using
      ((monthly_perf_inner_alignment [(1, some 1)] [(1, some 0), (2, some 1)] 2
        (some 1) (some 1)).mp h).1⟩

/-! ### C2: an empty filtered set renders as "nan%", not "N/A" -/

/-- C2 fails on the code: an empty supplier selection empties the filtered
set without an error, but the KPI card then shows the Python percent-format
of `NaN`, the string `"nan%"` — not `"N/A"`. -/
theorem empty_filter_renders_nan_not_na :
    supplierIsin [] (fillSupplier (mergeLeft [exProd1] [exDeliv1])) = [] ∧
      fmtPercent (dashboard [exProd1] [exDeliv1] [] ["US"]).prod_ot = "nan%" ∧
      fmtPercent (dashboard [exProd1] [exDeliv1] [] ["US"]).prod_ot ≠ "N/A" := by
  decide

/-- C2 amended: every filter selection that empties the filtered row set makes
the KPI mean undefined (`NaN`) without raising and without producing 0, and
the UI renders it as the string `"nan%"` (the percent-format of `NaN`) rather
than `"N/A"`. -/
theorem empty_filter_kpi_undefined_nan (prod : List ProdRow) (deliv : List DelivRow)
    (sSel cSel : List String)
    (hp : supplierIsin sSel (fillSupplier (mergeLeft prod deliv)) = [])
    (hd : countryIsin cSel deliv = []) :
    (dashboard prod deliv sSel cSel).prod_ot = none ∧
      fmtPercent (dashboard prod deliv sSel cSel).prod_ot = "nan%" ∧
      (dashboard prod deliv sSel cSel).del_ot = none ∧
      fmtPercent (dashboard prod deliv sSel cSel).del_ot = "nan%" := by
  have h1 : (dashboard prod deliv sSel cSel).prod_ot = none := by
    rw [dashboard_prod_ot, hp]
    rfl
  have h2 : (dashboard prod deliv sSel cSel).del_ot = none := by
    rw [dashboard_del_ot, hd]
    rfl
  exact ⟨h1, by rw [h1]; rfl, h2, by rw [h2]; rfl⟩

/-- Concrete instance of `empty_filter_kpi_undefined_nan` with both selections
empty. -/
theorem empty_filter_kpi_undefined_nan_witness :
    supplierIsin [] (fillSupplier (mergeLeft [exProd1] [exDeliv1])) = [] ∧
      countryIsin [] [exDeliv1] = [] ∧
      ((dashboard [exProd1] [exDeliv1] [] []).prod_ot = none ∧
        fmtPercent (dashboard [exProd1] [exDeliv1] [] []).prod_ot = "nan%" ∧
        (dashboard [exProd1] [exDeliv1] [] []).del_ot = none ∧
        fmtPercent (dashboard [exProd1] [exDeliv1] [] []).del_ot = "nan%") :=
  ⟨by decide, by decide,
    empty_filter_kpi_undefined_nan [exProd1] [exDeliv1] [] [] (by decide) (by decide)⟩

end SupplyChain
